import Mathlib

/-!
Verification of the rendering core of the multiclusterhub-operator repository:
the template cache (`pkg/rendering/templates/templates.go`) and the
kind-dispatched patch pipeline (`pkg/rendering/renderer.go`).

Shallow embedding conventions:
* Kubernetes `unstructured.Unstructured` objects and kustomize
  `resource.Resource` values carry the same underlying map content
  (`res.Map()` exposes the shared map), so both are modelled by one
  structure `Unstructured` holding exactly the fields the code reads or
  writes: the kind, the metadata (name, namespace, labels, annotations)
  and an opaque-or-typed body used by the ClusterRoleBinding conversion.
* Go maps `map[string]string` are association lists with unique keys;
  lookup of a missing key yields the zero value `""`.
* `metadata` may be absent or of the wrong dynamic type (the type
  assertion `u.Object["metadata"].(map[string]interface{})` fails): both
  are modelled as `none`.  Likewise `annotations` is `none` when absent
  or not of `map[string]string` shape.
* Go pointers `*resource.Resource` are indices into an explicit heap
  (`Heap := List Unstructured`); `DeepCopy` allocates a fresh cell, and
  the in-place mutations the patch functions perform (`SetNamespace`,
  label insertion) are heap writes to the cell they were handed.
* Fallible operations return `Except`; the `nil, nil` "drop" outcome of
  a patch function is `Except.ok none`.
-/

namespace MCHRender

/-- One entry of a ClusterRoleBinding's `subjects` list
(`rbac/v1.Subject`): the fields the renderer touches. -/
structure Subject where
  kind : String
  name : String
  nspace : String
deriving DecidableEq

/-- The body of a resource beyond the metadata the renderer inspects.
`crbSubjects` is a body whose `subjects` field has the typed
ClusterRoleBinding shape (so the unstructured → typed conversion
succeeds); `passthrough` is any other nested content, opaque to the
renderer (conversion to the typed ClusterRoleBinding fails on it). -/
inductive Body where
  | passthrough (payload : String)
  | crbSubjects (subjects : List Subject)
deriving DecidableEq

/-- The `metadata` map of a resource.  `nspace` models
`metadata.namespace` (`""` = unset, matching Go's zero value);
`annotations` is `some` exactly when the annotations entry is present
with `map[string]string` dynamic type. -/
structure Metadata where
  name : String := ""
  nspace : String := ""
  labels : List (String × String) := []
  annotations : Option (List (String × String)) := none
deriving DecidableEq

/-- An unstructured Kubernetes object / kustomize resource value.
`metadata = none` models an absent or non-map `metadata` entry. -/
structure Unstructured where
  kind : String := ""
  metadata : Option Metadata := none
  body : Body := Body.passthrough ""
deriving DecidableEq

/-- The owning custom resource (`operatorsv1.MultiClusterHub`): the
renderer only reads its name and namespace. -/
structure MultiClusterHub where
  name : String
  nspace : String
deriving DecidableEq

/-- Errors surfaced by the rendering pipeline. `panicIndexOutOfRange`
models the Go runtime panic on `clusterRoleBinding.Subjects[0]` when the
subject list is empty (an abrupt, no-result termination; no claim
depends on the distinction between panic and returned error). -/
inductive RErr where
  | convError
  | panicIndexOutOfRange
  | materialization (msg : String)
deriving DecidableEq

/-- Go map lookup on a `map[string]string`, returning the zero value
`""` for a missing key. -/
def lookupStr : List (String × String) → String → String
  | [], _ => ""
  | (k, v) :: rest, key => if k = key then v else lookupStr rest key

/-- Go map assignment `m[k] = v` on a `map[string]string`: replace the
binding if the key is present, otherwise add it. -/
def setKV : List (String × String) → String → String → List (String × String)
  | [], key, v => [(key, v)]
  | (k, w) :: rest, key, v =>
    if k = key then (key, v) :: rest else (k, w) :: setKV rest key v

/-- Model of `strconv.ParseBool`: first component is the parsed value (Go's zero
value `false` when parsing fails), second component is `true` iff the
string was a valid boolean literal. -/
def parseBool (s : String) : Bool × Bool :=
  if s = "1" ∨ s = "t" ∨ s = "T" ∨ s = "true" ∨ s = "TRUE" ∨ s = "True" then
    (true, true)
  else if s = "0" ∨ s = "f" ∨ s = "F" ∨ s = "false" ∨ s = "FALSE" ∨ s = "False" then
    (false, true)
  else
    (false, false)

/-- Model of `UpdateNamespace` (renderer.go:138-150): default `true`; when the
metadata map and the string-to-string annotations map are both present
and the `update-namespace` annotation value is non-empty, the result is
`strconv.ParseBool`'s value with the parse error discarded. -/
def UpdateNamespace (u : Unstructured) : Bool :=
  match u.metadata with
  | some md =>
    match md.annotations with
    | some annots =>
      if lookupStr annots "update-namespace" ≠ "" then
        (parseBool (lookupStr annots "update-namespace")).1
      else true
    | none => true
  | none => true

/-- Model of `res.SetNamespace(ns)` (kustomize kunstructured): writes
`metadata.namespace`, creating the metadata map when absent. -/
def setNamespace (u : Unstructured) (ns : String) : Unstructured :=
  match u.metadata with
  | some md => { u with metadata := some ({ md with nspace := ns }) }
  | none => { u with metadata := some ({ nspace := ns }) }

/-- The `update-namespace` annotation value the code observes for `u`:
`""` when metadata or a string-to-string annotations map is absent,
otherwise the Go map lookup. -/
def annotValue (u : Unstructured) (key : String) : String :=
  match u.metadata with
  | some md =>
    match md.annotations with
    | some annots => lookupStr annots key
    | none => ""
  | none => ""

/-- The labels the code observes for `u` (empty when metadata absent). -/
def labelsOf (u : Unstructured) : List (String × String) :=
  match u.metadata with
  | some md => md.labels
  | none => []

/-- The `metadata.namespace` the code observes for `u`. -/
def getNamespace (u : Unstructured) : String :=
  match u.metadata with
  | some md => md.nspace
  | none => ""

/-- Modelled from the spec: `utils.AddInstallerLabel` lives in
`pkg/utils`, which is not under the provided sources; the spec (§4.2)
says the transform "attach[es] an ownership/installer label derived from
the owning entity's name and namespace".  Modelled as writing the two
labels `installer.name` and `installer.namespace` into the resource's
label map (creating metadata when absent). -/
def AddInstallerLabel (u : Unstructured) (name nspace : String) : Unstructured :=
  let md := u.metadata.getD {}
  let md1 :=
    { md with labels := setKV (setKV md.labels "installer.name" name) "installer.namespace" nspace }
  { u with metadata := some md1 }

/-- A patch function's behaviour on the (deep-copied) resource value it
is handed: final value of that resource cell, and its returned
`(*unstructured.Unstructured, error)` pair — `Except.ok none` models the
`nil, nil` "drop" outcome. -/
abbrev RenderFn := Unstructured → Unstructured × Except RErr (Option Unstructured)

/-- Model of `Renderer.renderNamespace` (renderer.go:85-93): if `UpdateNamespace`
holds for the resource, `res.SetNamespace(cr.Namespace)`; the returned
object is built from the (possibly mutated) resource map. -/
def renderNamespace (cr : MultiClusterHub) : RenderFn := fun res =>
  let res1 := if UpdateNamespace res then setNamespace res cr.nspace else res
  (res1, Except.ok (some res1))

/-- Model of `Renderer.renderClusterRole` (renderer.go:95-99): add the installer
label and return the object. -/
def renderClusterRole (cr : MultiClusterHub) : RenderFn := fun res =>
  let u := AddInstallerLabel res cr.name cr.nspace
  (u, Except.ok (some u))

/-- Model of `Renderer.renderCRD` (renderer.go:131-135): add the installer label
and return the object. -/
def renderCRD (cr : MultiClusterHub) : RenderFn := fun res =>
  let u := AddInstallerLabel res cr.name cr.nspace
  (u, Except.ok (some u))

/-- Model of `runtime.DefaultUnstructuredConverter.FromUnstructured` into
`v1.ClusterRoleBinding`, reduced to the field the code reads: succeeds
with the subject list exactly when the body has the typed shape. -/
def decodeCRB (u : Unstructured) : Except RErr (List Subject) :=
  match u.body with
  | Body.crbSubjects subjects => Except.ok subjects
  | Body.passthrough _ => Except.error RErr.convError

/-- Model of `runtime.DefaultUnstructuredConverter.ToUnstructured` of the typed
ClusterRoleBinding: kind and metadata round-trip from the decoded
object, subjects are the (possibly rewritten) typed subjects. -/
def encodeCRB (kind : String) (md : Option Metadata) (subjects : List Subject) : Unstructured :=
  { kind := kind, metadata := md, body := Body.crbSubjects subjects }

/-- Model of `Renderer.renderClusterRoleBinding` (renderer.go:101-129): add the
installer label (mutating the shared map), decode to the typed form
(failure aborts), return the labelled object unchanged when the first
subject is a Group, otherwise rewrite the first subject's namespace when
`UpdateNamespace` holds and re-encode. -/
def renderClusterRoleBinding (cr : MultiClusterHub) : RenderFn := fun res =>
  let u := AddInstallerLabel res cr.name cr.nspace
  match decodeCRB u with
  | Except.error e => (u, Except.error e)
  | Except.ok subjects =>
    match subjects with
    | [] => (u, Except.error RErr.panicIndexOutOfRange)
    | subject :: rest =>
      if subject.kind = "Group" then (u, Except.ok (some u))
      else
        let subjects1 :=
          if UpdateNamespace u then { subject with nspace := cr.nspace } :: rest
          else subject :: rest
        (u, Except.ok (some (encodeCRB u.kind u.metadata subjects1)))

/-- The dispatch table `renderer.renderFns` built in `NewRenderer`
(renderer.go:30-49): kind string → patch function; absent kinds have no
entry. -/
def renderFns (cr : MultiClusterHub) : String → Option RenderFn
  | "Deployment" => some (renderNamespace cr)
  | "Service" => some (renderNamespace cr)
  | "ServiceAccount" => some (renderNamespace cr)
  | "ConfigMap" => some (renderNamespace cr)
  | "ClusterRoleBinding" => some (renderClusterRoleBinding cr)
  | "ClusterRole" => some (renderClusterRole cr)
  | "Subscription" => some (renderNamespace cr)
  | "StatefulSet" => some (renderNamespace cr)
  | "Channel" => some (renderNamespace cr)
  | "CustomResourceDefinition" => some (renderCRD cr)
  | _ => none

/-- The heap of live `*resource.Resource` cells; a Go pointer is an
index.  The template cache's stored resources occupy the initial cells
when a render runs over them. -/
abbrev Heap := List Unstructured

/-- Dereference a pointer (out-of-range reads never occur on the runs
the theorems quantify over; the default is irrelevant). -/
def readH (h : Heap) (p : Nat) : Unstructured := h.getD p {}

/-- In-place mutation of the cell `p` points to. -/
def writeH (h : Heap) (p : Nat) (v : Unstructured) : Heap := h.set p v

/-- Model of `template.DeepCopy()`: allocate a fresh cell holding the same value
and return the new pointer. -/
def deepCopy (h : Heap) (p : Nat) : Heap × Nat := (h ++ [readH h p], h.length)

/-- The loop of `Renderer.renderTemplates` (renderer.go:63-83) with its
accumulator `uobjs`: look the kind up in the dispatch table; no entry →
wrap the template into the output unchanged; otherwise run the patch
function on a deep copy — an error aborts with the empty slice
`[]*unstructured.Unstructured{}` and that error, a `nil` object is
skipped, otherwise the object is appended. Result: final heap, returned
slice, returned error. -/
def renderTemplatesGo (cr : MultiClusterHub) :
    Heap → List Nat → List Unstructured → Heap × List Unstructured × Option RErr
  | h, [], uobjs => (h, uobjs, none)
  | h, p :: rest, uobjs =>
    match renderFns cr (readH h p).kind with
    | none => renderTemplatesGo cr h rest (uobjs ++ [readH h p])
    | some f =>
      let hp := deepCopy h p
      let r := f (readH hp.1 hp.2)
      let h2 := writeH hp.1 hp.2 r.1
      match r.2 with
      | Except.error e => (h2, [], some e)
      | Except.ok none => renderTemplatesGo cr h2 rest uobjs
      | Except.ok (some uobj) => renderTemplatesGo cr h2 rest (uobjs ++ [uobj])

/-- Model of `Renderer.renderTemplates` over the cells `templates` points into. -/
def renderTemplates (cr : MultiClusterHub) (h : Heap) (templates : List Nat) :
    Heap × List Unstructured × Option RErr :=
  renderTemplatesGo cr h templates []

/-- The outcome of one loop iteration as a function of the template's
value alone (the deep copy hands the patch function exactly this value):
specification-level counterpart of the dispatch step. -/
def renderOne (cr : MultiClusterHub) (t : Unstructured) : Except RErr (Option Unstructured) :=
  match renderFns cr t.kind with
  | none => Except.ok (some t)
  | some f => (f t).2

/-- Value-level specification of the whole loop: outputs in template
order, empty output alongside the first error. -/
def renderPure (cr : MultiClusterHub) : List Unstructured → List Unstructured × Option RErr
  | [] => ([], none)
  | t :: rest =>
    match renderOne cr t with
    | Except.error e => ([], some e)
    | Except.ok none => renderPure cr rest
    | Except.ok (some u) =>
      match renderPure cr rest with
      | (us, none) => (u :: us, none)
      | (_, some e) => ([], some e)

/-! Section: the template cache (templates.go). -/

/-- The cache state `TemplateRenderer` (templates.go:31-34): the root
path and the key → ResMap map.  A ResMap is its resource list
(`resMap.Resources()`), a Go map is an association list with unique
keys. -/
structure TemplateRenderer where
  templatesPath : String
  templates : List (String × List Unstructured)
deriving DecidableEq

/-- Go map read `r.templates[key]` with its `ok` flag. -/
def lookupTpl : List (String × List Unstructured) → String → Option (List Unstructured)
  | [], _ => none
  | (k, v) :: rest, key => if k = key then some v else lookupTpl rest key

/-- Go map write `r.templates[key] = v`. -/
def insertTpl : List (String × List Unstructured) → String → List Unstructured →
    List (String × List Unstructured)
  | [], key, v => [(key, v)]
  | (k, w) :: rest, key, v =>
    if k = key then (key, v) :: rest else (k, w) :: insertTpl rest key v

/-- Model of `TemplateRenderer.GetTemplates` (templates.go:50-64), instrumented
with the number of calls it makes to the materialization step
`TemplateRenderer.render` (an opaque filesystem/kustomize operation,
passed in as `renderStep`; `vers` stands for the external
`version.Version` provider).  Key = `kind ++ "-" ++ version` with kind
fixed to `"multiclusterhub"`; hit → stored ResMap, zero renders; miss →
render `templatesPath/multiclusterhub/base`, propagate an error without
storing, store and return on success. -/
def GetTemplatesI (renderStep : String → Except RErr (List Unstructured)) (vers : String)
    (r : TemplateRenderer) : TemplateRenderer × Except RErr (List Unstructured) × Nat :=
  let key := "multiclusterhub" ++ "-" ++ vers
  match lookupTpl r.templates key with
  | some resMap => (r, Except.ok resMap, 0)
  | none =>
    match renderStep (r.templatesPath ++ "/" ++ "multiclusterhub" ++ "/" ++ "base") with
    | Except.error e => (r, Except.error e, 1)
    | Except.ok resMap =>
      ({ r with templates := insertTpl r.templates key resMap }, Except.ok resMap, 1)

/-- Model of `TemplateRenderer.GetTemplates` without the instrumentation. -/
def GetTemplates (renderStep : String → Except RErr (List Unstructured)) (vers : String)
    (r : TemplateRenderer) : TemplateRenderer × Except RErr (List Unstructured) :=
  ((GetTemplatesI renderStep vers r).1, (GetTemplatesI renderStep vers r).2.1)

/-- Iteration: `n` sequential calls to `GetTemplates`: final state, the list of
results, and the total number of materializations performed. -/
def getTemplatesN (renderStep : String → Except RErr (List Unstructured)) (vers : String) :
    TemplateRenderer → Nat → TemplateRenderer × List (Except RErr (List Unstructured)) × Nat
  | r, 0 => (r, [], 0)
  | r, n + 1 =>
    let s := GetTemplatesI renderStep vers r
    let t := getTemplatesN renderStep vers s.1 n
    (t.1, s.2.1 :: t.2.1, s.2.2 + t.2.2)

/-- Model of `Renderer.Render` (renderer.go:51-61): fetch the cached templates
(they are the pointed-to cells, so the render runs over the heap
`templates` with the pointer list `0, …, len-1`), abort on either error
with `nil` output, otherwise return the rendered collection. -/
def Render (cr : MultiClusterHub) (renderStep : String → Except RErr (List Unstructured))
    (vers : String) (r : TemplateRenderer) :
    TemplateRenderer × List Unstructured × Option RErr :=
  match GetTemplates renderStep vers r with
  | (r1, Except.error e) => (r1, [], some e)
  | (r1, Except.ok templates) =>
    let res := renderTemplates cr templates (List.range templates.length)
    match res.2.2 with
    | some e => (r1, [], some e)
    | none => (r1, res.2.1, none)

/-! Section: interleaved executions of `GetTemplates` (templates.go:50-64).

`GetTemplates` takes no lock: the `sync.Once` in `GetTemplateRenderer`
(templates.go:37-49) guards only the construction of the global
`TemplateRenderer`, not the per-key lookup/render/store sequence.  To
settle the concurrency claim we give each of two threads running
`GetTemplates` for the same key its program counter, and interleave the
three atomic steps (map lookup; render; map store) under an arbitrary
schedule. -/

/-- Program counter of one thread running `GetTemplates` for a fixed
key: `start` (about to look the key up), `missed` (lookup returned
`ok = false`, about to render), `rendered v` (about to store `v`),
`done ret` (returned `ret` to its caller). -/
inductive TPC where
  | start
  | missed
  | rendered (v : List Unstructured)
  | done (ret : List Unstructured)
deriving DecidableEq

/-- Shared state: the cache map plus a count of materializations. -/
structure CacheSt where
  templates : List (String × List Unstructured)
  renders : Nat
deriving DecidableEq

/-- One atomic step of a thread whose materialization would produce
`m`. -/
def threadStep (key : String) (m : List Unstructured) : TPC → CacheSt → TPC × CacheSt
  | TPC.start, s =>
    match lookupTpl s.templates key with
    | some v => (TPC.done v, s)
    | none => (TPC.missed, s)
  | TPC.missed, s => (TPC.rendered m, { s with renders := s.renders + 1 })
  | TPC.rendered v, s => (TPC.done v, { s with templates := insertTpl s.templates key v })
  | TPC.done v, s => (TPC.done v, s)

/-- Run a schedule over two threads requesting the same `key`
(`true` = step thread 1, `false` = step thread 2), from an empty cache. -/
def runSched (key : String) (m1 m2 : List Unstructured) :
    List Bool → TPC × TPC × CacheSt → TPC × TPC × CacheSt
  | [], st => st
  | b :: rest, (t1, t2, s) =>
    if b then
      let r := threadStep key m1 t1 s
      runSched key m1 m2 rest (r.1, t2, r.2)
    else
      let r := threadStep key m2 t2 s
      runSched key m1 m2 rest (t1, r.1, r.2)

/-- Both threads poised at the start, empty cache, no renders yet. -/
def initSched : TPC × TPC × CacheSt := (TPC.start, TPC.start, ⟨[], 0⟩)

/-! Section: concrete sample resources used by the concrete evaluation
theorems. -/

/-- A Deployment carrying no annotations at all. -/
def deplPlain : Unstructured := { kind := "Deployment" }

/-- A Deployment annotated `update-namespace: "false"` with an original
namespace. -/
def deplOptOut : Unstructured :=
  { kind := "Deployment",
    metadata := some ({ nspace := "orig", annotations := some [("update-namespace", "false")] }) }

/-- A Deployment whose `update-namespace` annotation is not a valid
boolean literal. -/
def deplYes : Unstructured :=
  { kind := "Deployment",
    metadata := some ({ annotations := some [("update-namespace", "yes")] }) }

/-- A ClusterRoleBinding whose first subject is a Group, annotated
`update-namespace: "true"`. -/
def crbGroup : Unstructured :=
  { kind := "ClusterRoleBinding",
    metadata := some ({ annotations := some [("update-namespace", "true")] }),
    body := Body.crbSubjects [⟨"Group", "admins", "orig-ns"⟩] }

/-- A ClusterRoleBinding whose first subject is a ServiceAccount, with
no annotations. -/
def crbSA : Unstructured :=
  { kind := "ClusterRoleBinding", body := Body.crbSubjects [⟨"ServiceAccount", "sa", "orig-ns"⟩] }

/-- A malformed ClusterRoleBinding: its body does not have the typed
shape, so the unstructured → typed conversion fails. -/
def crbBad : Unstructured := { kind := "ClusterRoleBinding" }

/-- A resource of a kind with no dispatch-table entry. -/
def secretRes : Unstructured :=
  { kind := "Secret", metadata := some ({ nspace := "keep" }) }

/-! Section: helper lemmas. -/

theorem parseBool_fst_of_not_ok (s : String) (h : (parseBool s).2 = false) :
    (parseBool s).1 = false := by
  unfold parseBool at h ⊢
  by_cases h1 : s = "1" ∨ s = "t" ∨ s = "T" ∨ s = "true" ∨ s = "TRUE" ∨ s = "True"
  · simp [h1] at h
  · by_cases h2 : s = "0" ∨ s = "f" ∨ s = "F" ∨ s = "false" ∨ s = "FALSE" ∨ s = "False" <;>
      simp [h1, h2]

theorem updateNamespace_eq (u : Unstructured) :
    UpdateNamespace u =
      (if annotValue u "update-namespace" = "" then true
       else (parseBool (annotValue u "update-namespace")).1) := by
  unfold UpdateNamespace annotValue
  cases hm : u.metadata with
  | none => simp
  | some md =>
    cases ha : md.annotations with
    | none => simp [ha]
    | some annots =>
      by_cases he : lookupStr annots "update-namespace" = "" <;> simp [ha, he]

theorem updateNamespace_of_empty {u : Unstructured}
    (h : annotValue u "update-namespace" = "") : UpdateNamespace u = true := by
  rw [updateNamespace_eq, h]
  simp

theorem updateNamespace_of_value {u : Unstructured} {v : String}
    (h : annotValue u "update-namespace" = v) (hne : v ≠ "") :
    UpdateNamespace u = (parseBool v).1 := by
  rw [updateNamespace_eq, h]
  simp [hne]

theorem addInstallerLabel_body (u : Unstructured) (n ns : String) :
    (AddInstallerLabel u n ns).body = u.body := rfl

theorem addInstallerLabel_kind (u : Unstructured) (n ns : String) :
    (AddInstallerLabel u n ns).kind = u.kind := rfl

theorem annotValue_addInstallerLabel (u : Unstructured) (n ns key : String) :
    annotValue (AddInstallerLabel u n ns) key = annotValue u key := by
  unfold annotValue AddInstallerLabel
  cases u.metadata <;> rfl

theorem lookupStr_setKV_self (l : List (String × String)) (k v : String) :
    lookupStr (setKV l k v) k = v := by
  induction l with
  | nil => simp [setKV, lookupStr]
  | cons p rest ih =>
    obtain ⟨k1, v1⟩ := p
    by_cases h : k1 = k
    · simp [setKV, h, lookupStr]
    · simp [setKV, h, lookupStr, ih]

theorem lookupStr_setKV_ne (l : List (String × String)) (k v k2 : String) (h : k2 ≠ k) :
    lookupStr (setKV l k v) k2 = lookupStr l k2 := by
  induction l with
  | nil => simp [setKV, lookupStr, Ne.symm h]
  | cons p rest ih =>
    obtain ⟨k1, v1⟩ := p
    by_cases h1 : k1 = k
    · subst h1
      simp [setKV, lookupStr, Ne.symm h]
    · simp [setKV, h1, lookupStr, ih]

theorem labelsOf_addInstallerLabel (u : Unstructured) (n ns : String) :
    lookupStr (labelsOf (AddInstallerLabel u n ns)) "installer.name" = n
    ∧ lookupStr (labelsOf (AddInstallerLabel u n ns)) "installer.namespace" = ns := by
  have hne : ("installer.name" : String) ≠ "installer.namespace" := by decide
  constructor
  · show lookupStr (setKV (setKV (u.metadata.getD {}).labels "installer.name" n)
      "installer.namespace" ns) "installer.name" = n
    rw [lookupStr_setKV_ne _ _ _ _ hne, lookupStr_setKV_self]
  · show lookupStr (setKV (setKV (u.metadata.getD {}).labels "installer.name" n)
      "installer.namespace" ns) "installer.namespace" = ns
    rw [lookupStr_setKV_self]

theorem lookupTpl_insertTpl_self (l : List (String × List Unstructured)) (k : String)
    (v : List Unstructured) : lookupTpl (insertTpl l k v) k = some v := by
  induction l with
  | nil => simp [insertTpl, lookupTpl]
  | cons p rest ih =>
    obtain ⟨k1, w⟩ := p
    by_cases h : k1 = k
    · simp [insertTpl, h, lookupTpl]
    · simp [insertTpl, h, lookupTpl, ih]

theorem readH_append_lt (h l : Heap) (q : Nat) (hq : q < h.length) :
    readH (h ++ l) q = readH h q := by
  unfold readH
  simp [List.getD_eq_getElem?_getD, List.getElem?_append, hq]

theorem readH_concat_length (h : Heap) (x : Unstructured) :
    readH (h ++ [x]) h.length = x := by
  unfold readH
  simp [List.getD_eq_getElem?_getD, List.getElem?_concat_length]

theorem readH_writeH_ne (h : Heap) (p q : Nat) (v : Unstructured) (hne : p ≠ q) :
    readH (writeH h p v) q = readH h q := by
  unfold readH writeH
  simp [List.getD_eq_getElem?_getD, List.getElem?_set_ne hne]

theorem writeH_length (h : Heap) (p : Nat) (v : Unstructured) :
    (writeH h p v).length = h.length := by
  unfold writeH
  simp

theorem readH_step (h : Heap) (q : Nat) (x v : Unstructured) (hq : q < h.length) :
    readH (writeH (h ++ [x]) h.length v) q = readH h q := by
  rw [readH_writeH_ne _ _ _ _ (Nat.ne_of_gt hq), readH_append_lt _ _ _ hq]

theorem length_step (h : Heap) (x v : Unstructured) :
    (writeH (h ++ [x]) h.length v).length = h.length + 1 := by
  rw [writeH_length]
  simp

theorem getTemplatesI_hit {g : String → Except RErr (List Unstructured)} {vers : String}
    {r : TemplateRenderer} {m : List Unstructured}
    (hl : lookupTpl r.templates ("multiclusterhub-" ++ vers) = some m) :
    GetTemplatesI g vers r = (r, Except.ok m, 0) := by
  unfold GetTemplatesI
  simp [hl]

theorem getTemplatesI_ok_lookup {f : String → Except RErr (List Unstructured)} {vers : String}
    {r r1 : TemplateRenderer} {m : List Unstructured} {c : Nat}
    (hok : GetTemplatesI f vers r = (r1, Except.ok m, c)) :
    lookupTpl r1.templates ("multiclusterhub-" ++ vers) = some m := by
  unfold GetTemplatesI at hok
  cases hl : lookupTpl r.templates ("multiclusterhub-" ++ vers) with
  | some v =>
    simp [hl] at hok
    obtain ⟨h1, h2, h3⟩ := hok
    rw [← h1, hl, h2]
  | none =>
    cases hs : f (r.templatesPath ++ "/" ++ "multiclusterhub" ++ "/" ++ "base") with
    | error e => simp [hl, hs] at hok
    | ok v =>
      simp [hl, hs] at hok
      obtain ⟨h1, h2, h3⟩ := hok
      rw [← h1]
      simpa [h2] using
        lookupTpl_insertTpl_self r.templates ("multiclusterhub-" ++ vers) v

theorem getTemplatesI_count_le_one (f : String → Except RErr (List Unstructured)) (vers : String)
    (r : TemplateRenderer) : (GetTemplatesI f vers r).2.2 ≤ 1 := by
  unfold GetTemplatesI
  cases hl : lookupTpl r.templates ("multiclusterhub-" ++ vers) with
  | some v => simp [hl]
  | none =>
    cases hs : f (r.templatesPath ++ "/" ++ "multiclusterhub" ++ "/" ++ "base") <;>
      simp [hl, hs]

theorem getTemplatesN_steady {f : String → Except RErr (List Unstructured)} {vers : String}
    {r1 : TemplateRenderer} {m : List Unstructured}
    (hl : lookupTpl r1.templates ("multiclusterhub-" ++ vers) = some m) :
    ∀ n, getTemplatesN f vers r1 n = (r1, List.replicate n (Except.ok m), 0) := by
  intro n
  induction n with
  | zero => simp [getTemplatesN]
  | succ k ih => simp [getTemplatesN, getTemplatesI_hit hl, ih, List.replicate_succ]

theorem renderTemplatesGo_frame (cr : MultiClusterHub) :
    ∀ (ptrs : List Nat) (h : Heap) (acc : List Unstructured) (q : Nat), q < h.length →
      readH (renderTemplatesGo cr h ptrs acc).1 q = readH h q
      ∧ h.length ≤ (renderTemplatesGo cr h ptrs acc).1.length := by
  intro ptrs
  induction ptrs with
  | nil =>
    intro h acc q hq
    exact ⟨rfl, Nat.le_refl _⟩
  | cons p rest ih =>
    intro h acc q hq
    rw [renderTemplatesGo]
    cases hf : renderFns cr (readH h p).kind with
    | none => exact ih h (acc ++ [readH h p]) q hq
    | some f =>
      simp only [deepCopy, readH_concat_length]
      cases hr : (f (readH h p)).2 with
      | error e =>
        refine ⟨readH_step h q _ _ hq, ?_⟩
        show h.length ≤ (writeH (h ++ [readH h p]) h.length (f (readH h p)).1).length
        rw [length_step]
        omega
      | ok o =>
        have hlt : q < (writeH (h ++ [readH h p]) h.length (f (readH h p)).1).length := by
          rw [length_step]
          omega
        cases o with
        | none =>
          obtain ⟨ih1, ih2⟩ := ih _ acc q hlt
          refine ⟨?_, ?_⟩
          · show readH (renderTemplatesGo cr
              (writeH (h ++ [readH h p]) h.length (f (readH h p)).1) rest acc).1 q = readH h q
            rw [ih1, readH_step h q _ _ hq]
          · show h.length ≤ (renderTemplatesGo cr
              (writeH (h ++ [readH h p]) h.length (f (readH h p)).1) rest acc).1.length
            rw [length_step] at ih2
            omega
        | some uobj =>
          obtain ⟨ih1, ih2⟩ := ih _ (acc ++ [uobj]) q hlt
          refine ⟨?_, ?_⟩
          · show readH (renderTemplatesGo cr
              (writeH (h ++ [readH h p]) h.length (f (readH h p)).1) rest (acc ++ [uobj])).1 q
              = readH h q
            rw [ih1, readH_step h q _ _ hq]
          · show h.length ≤ (renderTemplatesGo cr
              (writeH (h ++ [readH h p]) h.length (f (readH h p)).1) rest (acc ++ [uobj])).1.length
            rw [length_step] at ih2
            omega

theorem renderTemplatesGo_spec (cr : MultiClusterHub) :
    ∀ (ptrs : List Nat) (h : Heap) (acc : List Unstructured),
      (∀ p ∈ ptrs, p < h.length) →
      (renderTemplatesGo cr h ptrs acc).2 =
        (match renderPure cr (ptrs.map (readH h)) with
         | (us, none) => (acc ++ us, none)
         | (_, some e) => ([], some e)) := by
  intro ptrs
  induction ptrs with
  | nil =>
    intro h acc _
    simp [renderTemplatesGo, renderPure]
  | cons p rest ih =>
    intro h acc hval
    have hp : p < h.length := hval p (List.mem_cons_self p rest)
    have hrest : ∀ q ∈ rest, q < h.length := fun q hq => hval q (List.mem_cons_of_mem p hq)
    rw [renderTemplatesGo]
    simp only [List.map_cons]
    cases hf : renderFns cr (readH h p).kind with
    | none =>
      have h1 : renderOne cr (readH h p) = Except.ok (some (readH h p)) := by
        simp [renderOne, hf]
      rw [ih h (acc ++ [readH h p]) hrest, renderPure, h1]
      cases hrp : renderPure cr (rest.map (readH h)) with
      | mk us oe =>
        cases oe with
        | none => simp
        | some e => simp
    | some f =>
      simp only [deepCopy, readH_concat_length]
      cases hr : (f (readH h p)).2 with
      | error e =>
        have h1 : renderOne cr (readH h p) = Except.error e := by
          simp [renderOne, hf, hr]
        rw [renderPure, h1]
      | ok o =>
        have hrest2 : ∀ q ∈ rest,
            q < (writeH (h ++ [readH h p]) h.length (f (readH h p)).1).length := by
          intro q hq
          rw [length_step]
          exact Nat.lt_succ_of_lt (hrest q hq)
        have hmap : rest.map (readH (writeH (h ++ [readH h p]) h.length (f (readH h p)).1))
            = rest.map (readH h) :=
          List.map_congr_left (fun q hq => readH_step h q _ _ (hrest q hq))
        cases o with
        | none =>
          have h1 : renderOne cr (readH h p) = Except.ok none := by
            simp [renderOne, hf, hr]
          rw [ih _ acc hrest2, hmap, renderPure, h1]
        | some uobj =>
          have h1 : renderOne cr (readH h p) = Except.ok (some uobj) := by
            simp [renderOne, hf, hr]
          rw [ih _ (acc ++ [uobj]) hrest2, hmap, renderPure, h1]
          cases hrp : renderPure cr (rest.map (readH h)) with
          | mk us oe =>
            cases oe with
            | none => simp
            | some e => simp

theorem renderPure_all_unregistered (cr : MultiClusterHub) :
    ∀ ts : List Unstructured, (∀ t ∈ ts, renderFns cr t.kind = none) →
      renderPure cr ts = (ts, none) := by
  intro ts
  induction ts with
  | nil => intro _; rfl
  | cons t rest ih =>
    intro hall
    have h1 : renderOne cr t = Except.ok (some t) := by
      simp [renderOne, hall t (List.mem_cons_self t rest)]
    rw [renderPure, h1, ih (fun q hq => hall q (List.mem_cons_of_mem t hq))]

theorem renderPure_mem_error (cr : MultiClusterHub) :
    ∀ (ts : List Unstructured) (t : Unstructured) (e : RErr), t ∈ ts →
      renderOne cr t = Except.error e →
      (renderPure cr ts).1 = [] ∧ (renderPure cr ts).2.isSome := by
  intro ts
  induction ts with
  | nil =>
    intro t e hmem _
    exact absurd hmem (List.not_mem_nil t)
  | cons a rest ih =>
    intro t e hmem herr
    rcases List.mem_cons.mp hmem with h1 | h1
    · subst h1
      rw [renderPure, herr]
      exact ⟨rfl, rfl⟩
    · cases ha : renderOne cr a with
      | error e2 =>
        rw [renderPure, ha]
        exact ⟨rfl, rfl⟩
      | ok o =>
        obtain ⟨ih1, ih2⟩ := ih t e h1 herr
        cases o with
        | none =>
          rw [renderPure, ha]
          exact ⟨ih1, ih2⟩
        | some u =>
          rw [renderPure, ha]
          cases hrp : renderPure cr rest with
          | mk us oe =>
            cases oe with
            | none =>
              rw [hrp] at ih2
              simp at ih2
            | some e3 => exact ⟨rfl, rfl⟩

theorem renderPure_mem_unregistered (cr : MultiClusterHub) :
    ∀ (ts : List Unstructured) (t : Unstructured), t ∈ ts →
      renderFns cr t.kind = none → (renderPure cr ts).2 = none →
      t ∈ (renderPure cr ts).1 := by
  intro ts
  induction ts with
  | nil =>
    intro t hmem _ _
    exact absurd hmem (List.not_mem_nil t)
  | cons a rest ih =>
    intro t hmem hnone hok
    rcases List.mem_cons.mp hmem with h1 | h1
    · subst h1
      have h2 : renderOne cr t = Except.ok (some t) := by
        simp [renderOne, hnone]
      rw [renderPure, h2] at hok ⊢
      cases hrp : renderPure cr rest with
      | mk us oe =>
        cases oe with
        | none => exact List.mem_cons_self t us
        | some e =>
          rw [hrp] at hok
          exact absurd hok (Option.some_ne_none e)
    · cases ha : renderOne cr a with
      | error e2 =>
        rw [renderPure, ha] at hok
        exact absurd hok (Option.some_ne_none e2)
      | ok o =>
        cases o with
        | none =>
          rw [renderPure, ha] at hok ⊢
          exact ih t h1 hnone hok
        | some u =>
          rw [renderPure, ha] at hok ⊢
          cases hrp : renderPure cr rest with
          | mk us oe =>
            cases oe with
            | none =>
              have hm : t ∈ (renderPure cr rest).1 :=
                ih t h1 hnone (by rw [hrp])
              rw [hrp] at hm
              exact List.mem_cons_of_mem u hm
            | some e =>
              rw [hrp] at hok
              exact absurd hok (Option.some_ne_none e)

/-! Section: the claims. -/

/-- C1: for the fixed (kind, version) cache key, sequential repeated calls to
`GetTemplates` all return the collection stored by the first (successful)
call, the cache state never changes again, and the expensive
materialization step runs `c ≤ 1` times in total — every call after the
first is a cache hit that performs no re-render. -/
theorem getTemplates_idempotent_single_render
    (f : String → Except RErr (List Unstructured)) (vers : String)
    (r r1 : TemplateRenderer) (m : List Unstructured) (c n : Nat)
    (hok : GetTemplatesI f vers r = (r1, Except.ok m, c)) :
    getTemplatesN f vers r (n + 1) = (r1, List.replicate (n + 1) (Except.ok m), c) ∧ c ≤ 1 := by
  have hl := getTemplatesI_ok_lookup hok
  constructor
  · simp [getTemplatesN, hok, getTemplatesN_steady hl, List.replicate_succ]
  · have hc := getTemplatesI_count_le_one f vers r
    rw [hok] at hc
    exact hc

theorem getTemplates_idempotent_single_render_witness :
    GetTemplatesI (fun _ => Except.ok []) "2.0.0" ⟨"/t", []⟩
        = (⟨"/t", [("multiclusterhub-2.0.0", [])]⟩, Except.ok [], 1)
    ∧ (getTemplatesN (fun _ => Except.ok []) "2.0.0" ⟨"/t", []⟩ (2 + 1)
        = (⟨"/t", [("multiclusterhub-2.0.0", [])]⟩,
            List.replicate (2 + 1) (Except.ok []), 1) ∧ 1 ≤ 1) :=
  ⟨rfl, getTemplates_idempotent_single_render (fun _ => Except.ok []) "2.0.0"
    ⟨"/t", []⟩ ⟨"/t", [("multiclusterhub-2.0.0", [])]⟩ [] 1 2 rfl⟩

/-- C7: when the materialization step fails for an uncached key,
`GetTemplates` propagates the error with the cache state completely
unchanged (nothing is stored under the key), so a later call with the
same key attempts materialization again (and succeeds, storing the
result, when the step now succeeds). -/
theorem getTemplates_error_propagates_uncached
    (f g : String → Except RErr (List Unstructured)) (vers : String)
    (r : TemplateRenderer) (e : RErr) (m : List Unstructured)
    (hmiss : lookupTpl r.templates ("multiclusterhub-" ++ vers) = none)
    (hf : f (r.templatesPath ++ "/" ++ "multiclusterhub" ++ "/" ++ "base") = Except.error e)
    (hg : g (r.templatesPath ++ "/" ++ "multiclusterhub" ++ "/" ++ "base") = Except.ok m) :
    GetTemplatesI f vers r = (r, Except.error e, 1)
    ∧ GetTemplatesI g vers r =
        ({ r with templates := insertTpl r.templates ("multiclusterhub-" ++ vers) m },
          Except.ok m, 1) := by
  constructor
  · unfold GetTemplatesI
    simp [hmiss, hf]
  · unfold GetTemplatesI
    simp [hmiss, hg]

theorem getTemplates_error_propagates_uncached_witness :
    GetTemplatesI (fun _ => Except.error (RErr.materialization "bad overlay")) "2.0.0" ⟨"/t", []⟩
        = (⟨"/t", []⟩, Except.error (RErr.materialization "bad overlay"), 1)
    ∧ GetTemplatesI (fun _ => Except.ok []) "2.0.0" ⟨"/t", []⟩
        = (⟨"/t", [("multiclusterhub-2.0.0", [])]⟩, Except.ok [], 1) := by
  have h := getTemplates_error_propagates_uncached
    (fun _ => Except.error (RErr.materialization "bad overlay")) (fun _ => Except.ok [])
    "2.0.0" ⟨"/t", []⟩ (RErr.materialization "bad overlay") [] rfl rfl rfl
  exact h

/-- C10: when a resource's string-to-string annotations map carries a
non-empty `update-namespace` value that `strconv.ParseBool` rejects,
`UpdateNamespace` returns `false` (the namespace is not overridden); the
parse error is discarded (the function's only output is the `Bool`), so
neither the default `true` is restored nor any error surfaced. -/
theorem updateNamespace_malformed_annotation_false (u : Unstructured) (md : Metadata)
    (annots : List (String × String)) (v : String)
    (hmd : u.metadata = some md) (ha : md.annotations = some annots)
    (hv : lookupStr annots "update-namespace" = v)
    (hne : v ≠ "") (hbad : (parseBool v).2 = false) :
    UpdateNamespace u = false := by
  have hval : annotValue u "update-namespace" = v := by
    unfold annotValue
    simp [hmd, ha, hv]
  rw [updateNamespace_of_value hval hne]
  exact parseBool_fst_of_not_ok v hbad

theorem updateNamespace_malformed_annotation_false_witness :
    (parseBool "yes").2 = false ∧ UpdateNamespace deplYes = false :=
  ⟨by decide, updateNamespace_malformed_annotation_false deplYes _ _ "yes" rfl rfl rfl
    (by decide) (by decide)⟩

/-- C2: `Deployment` is routed to the namespace transform, and for every
resource passed to it: with no `update-namespace` annotation value (absent
or empty) the resource's namespace is set to the owning entity's
namespace, while with the annotation value `"false"` the resource is
returned completely untouched. -/
theorem renderNamespace_update_namespace_policy (cr : MultiClusterHub) (res : Unstructured) :
    renderFns cr "Deployment" = some (renderNamespace cr)
    ∧ (annotValue res "update-namespace" = "" →
        renderNamespace cr res = (setNamespace res cr.nspace,
          Except.ok (some (setNamespace res cr.nspace)))
        ∧ getNamespace (setNamespace res cr.nspace) = cr.nspace)
    ∧ (annotValue res "update-namespace" = "false" →
        renderNamespace cr res = (res, Except.ok (some res))) := by
  refine ⟨rfl, ?_, ?_⟩
  · intro h
    have hu : UpdateNamespace res = true := updateNamespace_of_empty h
    constructor
    · unfold renderNamespace
      simp [hu]
    · unfold getNamespace setNamespace
      cases res.metadata <;> rfl
  · intro h
    have hu : UpdateNamespace res = false := by
      rw [updateNamespace_of_value h (by decide)]
      decide
    unfold renderNamespace
    simp [hu]

theorem renderNamespace_update_namespace_policy_witness :
    (renderNamespace ⟨"mch", "ns-a"⟩ deplPlain =
        (setNamespace deplPlain "ns-a", Except.ok (some (setNamespace deplPlain "ns-a")))
      ∧ getNamespace (setNamespace deplPlain "ns-a") = "ns-a")
    ∧ renderNamespace ⟨"mch", "ns-a"⟩ deplOptOut = (deplOptOut, Except.ok (some deplOptOut)) :=
  ⟨(renderNamespace_update_namespace_policy ⟨"mch", "ns-a"⟩ deplPlain).2.1 rfl,
   (renderNamespace_update_namespace_policy ⟨"mch", "ns-a"⟩ deplOptOut).2.2 rfl⟩

/-- C4: for every ClusterRoleBinding resource that decodes successfully
and whose first subject has kind `"Group"`, the transform returns the
labelled object itself, whose subject list (namespaces included) is
exactly the original one — independent of the `update-namespace`
annotation and of the owning entity's namespace, both universally
quantified here. -/
theorem renderClusterRoleBinding_group_subjects_unchanged (cr : MultiClusterHub)
    (res : Unstructured) (s : Subject) (rest : List Subject)
    (hsub : res.body = Body.crbSubjects (s :: rest)) (hg : s.kind = "Group") :
    renderClusterRoleBinding cr res =
      (AddInstallerLabel res cr.name cr.nspace,
        Except.ok (some (AddInstallerLabel res cr.name cr.nspace)))
    ∧ (AddInstallerLabel res cr.name cr.nspace).body = Body.crbSubjects (s :: rest) := by
  have hb : (AddInstallerLabel res cr.name cr.nspace).body = Body.crbSubjects (s :: rest) := by
    rw [addInstallerLabel_body, hsub]
  refine ⟨?_, hb⟩
  unfold renderClusterRoleBinding
  simp [decodeCRB, hb, hg]

theorem renderClusterRoleBinding_group_subjects_unchanged_witness :
    crbGroup.body = Body.crbSubjects [⟨"Group", "admins", "orig-ns"⟩]
    ∧ (renderClusterRoleBinding ⟨"mch", "ns-a"⟩ crbGroup =
        (AddInstallerLabel crbGroup "mch" "ns-a",
          Except.ok (some (AddInstallerLabel crbGroup "mch" "ns-a")))
      ∧ (AddInstallerLabel crbGroup "mch" "ns-a").body
          = Body.crbSubjects [⟨"Group", "admins", "orig-ns"⟩]) :=
  ⟨rfl, renderClusterRoleBinding_group_subjects_unchanged ⟨"mch", "ns-a"⟩ crbGroup _ _ rfl rfl⟩

/-- C5: for every ClusterRoleBinding resource that decodes successfully,
whose first subject has kind `"ServiceAccount"`, and which carries no
`update-namespace` opt-out annotation, the transform rewrites that first
subject's namespace to the owning entity's namespace and the returned
object carries the installer labels derived from the owning entity's
name and namespace. -/
theorem renderClusterRoleBinding_serviceaccount_namespace_rewrite (cr : MultiClusterHub)
    (res : Unstructured) (s : Subject) (rest : List Subject)
    (hsub : res.body = Body.crbSubjects (s :: rest))
    (hsa : s.kind = "ServiceAccount")
    (hno : annotValue res "update-namespace" = "") :
    (renderClusterRoleBinding cr res).2 =
      Except.ok (some (encodeCRB (AddInstallerLabel res cr.name cr.nspace).kind
        (AddInstallerLabel res cr.name cr.nspace).metadata
        ({ s with nspace := cr.nspace } :: rest)))
    ∧ lookupStr (labelsOf (encodeCRB (AddInstallerLabel res cr.name cr.nspace).kind
        (AddInstallerLabel res cr.name cr.nspace).metadata
        ({ s with nspace := cr.nspace } :: rest))) "installer.name" = cr.name
    ∧ lookupStr (labelsOf (encodeCRB (AddInstallerLabel res cr.name cr.nspace).kind
        (AddInstallerLabel res cr.name cr.nspace).metadata
        ({ s with nspace := cr.nspace } :: rest))) "installer.namespace" = cr.nspace := by
  have hb : (AddInstallerLabel res cr.name cr.nspace).body = Body.crbSubjects (s :: rest) := by
    rw [addInstallerLabel_body, hsub]
  have hng : ¬ s.kind = "Group" := by
    rw [hsa]
    decide
  have hu : UpdateNamespace (AddInstallerLabel res cr.name cr.nspace) = true :=
    updateNamespace_of_empty (by rw [annotValue_addInstallerLabel, hno])
  have hlab : labelsOf (encodeCRB (AddInstallerLabel res cr.name cr.nspace).kind
      (AddInstallerLabel res cr.name cr.nspace).metadata
      ({ s with nspace := cr.nspace } :: rest)) =
      labelsOf (AddInstallerLabel res cr.name cr.nspace) := rfl
  refine ⟨?_, ?_, ?_⟩
  · unfold renderClusterRoleBinding
    simp [decodeCRB, hb, hng, hu]
  · rw [hlab]
    exact (labelsOf_addInstallerLabel res cr.name cr.nspace).1
  · rw [hlab]
    exact (labelsOf_addInstallerLabel res cr.name cr.nspace).2

theorem renderClusterRoleBinding_serviceaccount_namespace_rewrite_witness :
    crbSA.body = Body.crbSubjects [⟨"ServiceAccount", "sa", "orig-ns"⟩]
    ∧ ((renderClusterRoleBinding ⟨"mch", "ns-a"⟩ crbSA).2 =
        Except.ok (some (encodeCRB (AddInstallerLabel crbSA "mch" "ns-a").kind
          (AddInstallerLabel crbSA "mch" "ns-a").metadata [⟨"ServiceAccount", "sa", "ns-a"⟩]))
      ∧ lookupStr (labelsOf (encodeCRB (AddInstallerLabel crbSA "mch" "ns-a").kind
          (AddInstallerLabel crbSA "mch" "ns-a").metadata
          [⟨"ServiceAccount", "sa", "ns-a"⟩])) "installer.name" = "mch"
      ∧ lookupStr (labelsOf (encodeCRB (AddInstallerLabel crbSA "mch" "ns-a").kind
          (AddInstallerLabel crbSA "mch" "ns-a").metadata
          [⟨"ServiceAccount", "sa", "ns-a"⟩])) "installer.namespace" = "ns-a") :=
  ⟨rfl, renderClusterRoleBinding_serviceaccount_namespace_rewrite ⟨"mch", "ns-a"⟩ crbSA _ _
    rfl rfl rfl⟩

/-- C3: if some resource's patch function fails on its template value
during the pipeline, `renderTemplates` returns the empty collection
together with an error (no partial collection of already-processed
resources), and whenever the pipeline over the fetched templates fails,
`Render` returns the same error with `nil` (empty) output. -/
theorem renderTemplates_fail_fast_empty (cr : MultiClusterHub) (h : Heap) (ptrs : List Nat)
    (renderStep : String → Except RErr (List Unstructured)) (vers : String)
    (r : TemplateRenderer) (p : Nat) (e : RErr)
    (hval : ∀ q ∈ ptrs, q < h.length) (hp : p ∈ ptrs)
    (herr : renderOne cr (readH h p) = Except.error e) :
    ((renderTemplates cr h ptrs).2.1 = [] ∧ (renderTemplates cr h ptrs).2.2.isSome)
    ∧ (∀ r1 ts e2, GetTemplates renderStep vers r = (r1, Except.ok ts) →
        (renderTemplates cr ts (List.range ts.length)).2.2 = some e2 →
        Render cr renderStep vers r = (r1, [], some e2)) := by
  constructor
  · have hmem : readH h p ∈ ptrs.map (readH h) := List.mem_map_of_mem _ hp
    obtain ⟨h1, h2⟩ := renderPure_mem_error cr (ptrs.map (readH h)) (readH h p) e hmem herr
    unfold renderTemplates
    rw [renderTemplatesGo_spec cr ptrs h [] hval]
    cases hrp : renderPure cr (ptrs.map (readH h)) with
    | mk us oe =>
      rw [hrp] at h1 h2
      cases oe with
      | none => simp at h2
      | some e3 => exact ⟨rfl, rfl⟩
  · intro r1 ts e2 hget hrt
    unfold Render
    rw [hget]
    simp only [renderTemplates] at hrt
    simp [renderTemplates, hrt]

theorem renderTemplates_fail_fast_empty_witness :
    renderOne ⟨"mch", "ns-a"⟩ (readH [crbBad] 0) = Except.error RErr.convError
    ∧ (((renderTemplates ⟨"mch", "ns-a"⟩ [crbBad] [0]).2.1 = []
        ∧ (renderTemplates ⟨"mch", "ns-a"⟩ [crbBad] [0]).2.2.isSome)
      ∧ Render ⟨"mch", "ns-a"⟩ (fun _ => Except.ok [crbBad]) "2.0.0" ⟨"/t", []⟩
          = (⟨"/t", [("multiclusterhub-2.0.0", [crbBad])]⟩, [], some RErr.convError)) := by
  have h := renderTemplates_fail_fast_empty ⟨"mch", "ns-a"⟩ [crbBad] [0]
    (fun _ => Except.ok [crbBad]) "2.0.0" ⟨"/t", []⟩ 0 RErr.convError
    (by intro q hq; rw [List.mem_singleton] at hq; subst hq; decide)
    (List.mem_singleton.mpr rfl) rfl
  exact ⟨rfl, h.1, h.2 ⟨"/t", [("multiclusterhub-2.0.0", [crbBad])]⟩ [crbBad]
    RErr.convError rfl rfl⟩

/-- C6: a resource whose kind has no dispatch-table entry passes through
the pipeline structurally unchanged and is never dropped: when every
pointed-to template has an unregistered kind the output is exactly the
template values in cache order with no error, and in any successful run
each unregistered-kind template value appears in the output. -/
theorem renderTemplates_unregistered_passthrough (cr : MultiClusterHub) (h : Heap)
    (ptrs : List Nat) (hval : ∀ q ∈ ptrs, q < h.length) :
    ((∀ q ∈ ptrs, renderFns cr (readH h q).kind = none) →
      (renderTemplates cr h ptrs).2 = (ptrs.map (readH h), none))
    ∧ (∀ p ∈ ptrs, renderFns cr (readH h p).kind = none →
        (renderTemplates cr h ptrs).2.2 = none →
        readH h p ∈ (renderTemplates cr h ptrs).2.1) := by
  have hspec := renderTemplatesGo_spec cr ptrs h [] hval
  constructor
  · intro hall
    have hpure : renderPure cr (ptrs.map (readH h)) = (ptrs.map (readH h), none) :=
      renderPure_all_unregistered cr _ (by
        intro t ht
        obtain ⟨q, hq, hqe⟩ := List.mem_map.mp ht
        rw [← hqe]
        exact hall q hq)
    unfold renderTemplates
    rw [hspec, hpure]
    simp
  · intro p hp hnone hok
    unfold renderTemplates at hok ⊢
    rw [hspec] at hok ⊢
    cases hrp : renderPure cr (ptrs.map (readH h)) with
    | mk us oe =>
      rw [hrp] at hok
      cases oe with
      | some e => exact absurd hok (Option.some_ne_none e)
      | none =>
        have hmem : readH h p ∈ us := by
          have hm := renderPure_mem_unregistered cr (ptrs.map (readH h)) (readH h p)
            (List.mem_map_of_mem _ hp) hnone (by rw [hrp])
          rw [hrp] at hm
          exact hm
        show readH h p ∈ [] ++ us
        simpa using hmem

theorem renderTemplates_unregistered_passthrough_witness :
    (renderTemplates ⟨"mch", "ns-a"⟩ [secretRes] [0]).2 = ([readH [secretRes] 0], none)
    ∧ readH [secretRes] 0 ∈ (renderTemplates ⟨"mch", "ns-a"⟩ [secretRes] [0]).2.1 := by
  have h := renderTemplates_unregistered_passthrough ⟨"mch", "ns-a"⟩ [secretRes] [0]
    (by intro q hq; rw [List.mem_singleton] at hq; subst hq; decide)
  refine ⟨h.1 ?_, h.2 0 (List.mem_singleton.mpr rfl) rfl rfl⟩
  intro q hq
  rw [List.mem_singleton] at hq
  subst hq
  rfl

/-- C8: the patch pipeline never mutates the heap cells that existed
before the render — every registered patch function receives a deep
copy, a freshly allocated cell, and writes only there — so the cached
template resources read back unchanged after any render over them. -/
theorem renderTemplates_cache_not_mutated (cr : MultiClusterHub) (h : Heap) (ptrs : List Nat)
    (q : Nat) (hq : q < h.length) :
    readH (renderTemplates cr h ptrs).1 q = readH h q :=
  (renderTemplatesGo_frame cr ptrs h [] q hq).1

theorem renderTemplates_cache_not_mutated_witness :
    0 < ([deplPlain] : Heap).length
    ∧ readH (renderTemplates ⟨"mch", "ns-a"⟩ [deplPlain] [0]).1 0 = readH [deplPlain] 0 :=
  ⟨by decide, renderTemplates_cache_not_mutated ⟨"mch", "ns-a"⟩ [deplPlain] [0] 0 (by decide)⟩

/-- C9, counterexample: it is not the case that every interleaving of two
threads running `GetTemplates` for the same key performs at most one
materialization — under the schedule where both threads pass the
cache-miss check before either stores, the materialization runs twice
(the `sync.Once` guards only the construction of the renderer, not the
per-key lookup/render/store sequence). -/
theorem concurrent_getTemplates_double_render :
    ¬ ∀ sched : List Bool,
        ((runSched "multiclusterhub-2.0.0" [] [] sched initSched).2.2).renders ≤ 1 := by
  intro hall
  have h := hall [true, false, true, false, true, false]
  revert h
  decide

/-- C9, amended: when the two calls do not interleave (the second thread
starts only after the first has stored), exactly one materialization
happens and both callers observe the single stored collection. -/
theorem sequential_getTemplates_single_render (key : String) (m1 m2 : List Unstructured) :
    runSched key m1 m2 [true, true, true, false] initSched =
      (TPC.done m1, TPC.done m1, ⟨[(key, m1)], 1⟩) := by
  simp [runSched, threadStep, initSched, lookupTpl, insertTpl]

end MCHRender
